import Mathlib

/-!
Shallow embedding of the WinQuant arsenal-ctp-driver sources
(`ctpUtil.py`, `ctpOrder.py`, `ctpDataPublisher.py`, `ctpExecutionEngine.py`)
and proofs about the claims of its specification.

Python strings are modelled as lists of characters (`Str`), Python dicts as
association lists, and Python sets as duplicate-free lists.  Functions that can
raise a Python exception return `Except Str`.
-/

/-- Python `str` is modelled as a list of characters. -/
abbrev Str := List Char

/-- Model of Python `s.split(c)` for a one-character separator `c`:
splits on every occurrence of `c`, keeping empty segments, and yields `[s]`
(one segment) when `c` does not occur.  `split` of the empty string is `[[]]`. -/
def splitOnChar (c : Char) : Str → List Str
  | [] => [[]]
  | x :: xs =>
    match splitOnChar c xs with
    | [] => [[]]
    | r :: rs => if x = c then [] :: r :: rs else (x :: r) :: rs

/-- Model of Python `s.startswith(p)`. -/
def strStartsWith : Str → Str → Bool
  | _, [] => true
  | [], _ :: _ => false
  | x :: xs, y :: ys => x = y && strStartsWith xs ys

/-- Model of Python `str.upper()` (ASCII case folding, as used for
instrument codes). -/
def strUpper (s : Str) : Str := s.map Char.toUpper

/-- Model of Python `str.lower()` (ASCII case folding, as used for
instrument codes). -/
def strLower (s : Str) : Str := s.map Char.toLower

/-- First-match lookup in an association list with a default, modelling
Python `dict.get(k, d)`. -/
def lookupD {κ α : Type} [DecidableEq κ] (m : List (κ × α)) (k : κ) (d : α) : α :=
  match m with
  | [] => d
  | (k₁, v) :: rest => if k = k₁ then v else lookupD rest k d

/-- Store a binding in an association list, modelling Python `d[k] = v`:
replaces the first binding of `k`, or appends a new one. -/
def alistSet {κ α : Type} [DecidableEq κ] (m : List (κ × α)) (k : κ) (v : α) : List (κ × α) :=
  match m with
  | [] => [(k, v)]
  | (k₁, v₁) :: rest => if k = k₁ then (k, v) :: rest else (k₁, v₁) :: alistSet rest k v

/-- Model of Python `set.add`: inserts an element unless it is present. -/
def setAdd {α : Type} [DecidableEq α] (s : List α) (a : α) : List α :=
  if a ∈ s then s else s ++ [a]

/-- Decidable equality for `Except`, so that runs of the embedded functions can
be checked on concrete inputs. -/
instance {ε α : Type} [DecidableEq ε] [DecidableEq α] : DecidableEq (Except ε α) := fun x y =>
  match x, y with
  | Except.ok a, Except.ok b => decidable_of_iff (a = b) (by simp)
  | Except.error a, Except.error b => decidable_of_iff (a = b) (by simp)
  | Except.ok _, Except.error _ => isFalse (fun h => Except.noConfusion h)
  | Except.error _, Except.ok _ => isFalse (fun h => Except.noConfusion h)

/- ### `ctpUtil.py` -/

/-- Embeds `getCtpInstId` (src/ctpUtil.py lines 40-62).  The Python tuple
unpack `instId, exch = secId.split('.')` raises `ValueError` unless the split
yields exactly two segments. -/
def getCtpInstId (secId : Str) : Except Str Str :=
  match splitOnChar '.' secId with
  | [instId, exch] =>
    if strStartsWith exch ("XZCE".toList) || strStartsWith exch ("CCFX".toList) then
      Except.ok (strUpper instId)
    else
      Except.ok (strLower instId)
  | _ => Except.error ("ValueError".toList)

/-- Embeds `getCtpExch` (src/ctpUtil.py lines 65-81).  `secId.split('.')[1]`
raises `IndexError` when the split has fewer than two segments; otherwise the
result is the second character of that segment as a one-character string, or
the empty string when the segment is shorter. -/
def getCtpExch (secId : Str) : Except Str Str :=
  match splitOnChar '.' secId with
  | _ :: secIdCmp :: _ =>
    Except.ok (match secIdCmp with
      | _ :: x :: _ => [x]
      | _ => [])
  | _ => Except.error ("IndexError".toList)

/- ### `ctpOrder.py` and the external `execution.order` base class -/

/-- Order side constants `BUY` / `SELL` of the external `execution.order.Order`
base class, as compared against in `convertToCtpOrder`. -/
inductive Side where
  | buy
  | sell
deriving DecidableEq

/-- Price-type constants of the external `execution.order.Order` base class:
`MARKET_ORDER`, a limit price type, or any other price type. -/
inductive PriceType where
  | market
  | limit
  | other (code : Nat)
deriving DecidableEq

/-- Offset constants of the external `execution.order.Order` base class:
`OPEN`, `CLOSE`, `CLOSE_TODAY`, or any other offset. -/
inductive Offset where
  | openC
  | closeC
  | closeTodayC
  | otherC (code : Nat)
deriving DecidableEq

/-- The logical (bullet) order handed to `convertToCtpOrder`.  Prices are
modelled as exact integers; the source uses Python floats, on which `+ 100`
and `max` agree for the values at issue. -/
structure Order where
  secId : Str
  side : Side
  volume : Nat
  price : Int
  priceType : PriceType
  offset : Offset
deriving DecidableEq

/-- A CTP-native order as built by `CTPOrder.__init__`
(src/ctpOrder.py lines 80-86); the flag fields hold the class constants. -/
structure CTPOrder where
  instId : Str
  exch : Str
  side : Nat
  volume : Nat
  priceType : Nat
  price : Int
  offsetFlag : Nat
deriving DecidableEq

/-- `CTPOrder.DIRECTION_BUY` (src/ctpOrder.py line 55). -/
def CTPOrder.DIRECTION_BUY : Nat := 48

/-- `CTPOrder.DIRECTION_SELL` (src/ctpOrder.py line 56). -/
def CTPOrder.DIRECTION_SELL : Nat := 49

/-- `CTPOrder.OFFSET_OPEN` (src/ctpOrder.py line 45). -/
def CTPOrder.OFFSET_OPEN : Nat := 48

/-- `CTPOrder.OFFSET_CLOSE` (src/ctpOrder.py line 46). -/
def CTPOrder.OFFSET_CLOSE : Nat := 49

/-- `CTPOrder.OFFSET_CLOSE_TODAY` (src/ctpOrder.py line 48). -/
def CTPOrder.OFFSET_CLOSE_TODAY : Nat := 51

/-- `CTPOrder.PRICE_LIMIT_PRICE` (src/ctpOrder.py line 61). -/
def CTPOrder.PRICE_LIMIT_PRICE : Nat := 50

/-- Embeds `convertToCtpOrder` (src/ctpUtil.py lines 84-120): maps the side to
a native direction flag, replaces a MARKET price with `price + 100` on the buy
side and `max(1, price - 100)` on the sell side, maps the offset, and always
emits the native price type `PRICE_LIMIT_PRICE`. -/
def convertToCtpOrder (order : Order) : Except Str CTPOrder :=
  match getCtpInstId order.secId with
  | Except.error e => Except.error e
  | Except.ok instId =>
    match getCtpExch order.secId with
    | Except.error e => Except.error e
    | Except.ok exch =>
      let side := if order.side = Side.buy then CTPOrder.DIRECTION_BUY
                  else CTPOrder.DIRECTION_SELL
      let volume := order.volume
      let price :=
        if order.priceType = PriceType.market then
          if side = CTPOrder.DIRECTION_BUY then order.price + 100
          else max 1 (order.price - 100)
        else order.price
      let offset :=
        if order.offset = Offset.closeC then CTPOrder.OFFSET_CLOSE
        else if order.offset = Offset.closeTodayC then CTPOrder.OFFSET_CLOSE_TODAY
        else CTPOrder.OFFSET_OPEN
      Except.ok { instId := instId, exch := exch, side := side, volume := volume,
                  priceType := CTPOrder.PRICE_LIMIT_PRICE, price := price,
                  offsetFlag := offset }

/- ### `ctpDataPublisher.py`: subscription registry state -/

/-- A market-data subscriber (the duck-typed `datafeed.subscriber.Subscriber`
collaborator): its identity tag (Python object identity, used by set
membership), its `getSubscribedTopics()` result, and its
`getSubscribedDataFields()` result, where `none` is Python `None` meaning
"all fields". -/
structure Subscriber where
  tag : Nat
  subscribedTopics : List Str
  subscribedDataFields : Option (List Str)
deriving DecidableEq

/-- A value stored in a `topicsToSubscribers` reverse-index set.  Python sets
are dynamically typed: an entry could be an integer identifier or a subscriber
object; the source stores subscriber objects. -/
inductive IndexEntry where
  | int (i : Nat)
  | sub (s : Subscriber)
deriving DecidableEq

/-- The mutable state of `CTPDataPublisher` (src/ctpDataPublisher.py lines
80-89): the `subscribers` dict, the `secIds` dict from CTP instrument ids to
external names, the `topicsToSubscribers` reverse index, and the `nextId`
counter. -/
structure PublisherState where
  subscribers : List (Nat × Subscriber)
  secIds : List (Str × Str)
  topicsToSubscribers : List (Str × List IndexEntry)
  nextId : Nat
deriving DecidableEq

/-- The publisher state right after `__init__`. -/
def initPub : PublisherState where
  subscribers := []
  secIds := []
  topicsToSubscribers := []
  nextId := 1

/-- The reverse-index update loop of `addSubscriber`
(src/ctpDataPublisher.py lines 160-167): for each topic, the entry `e` is
added to the topic's set, the set being created when absent. -/
def addTopics (idx : List (Str × List IndexEntry)) (e : IndexEntry)
    (topics : List Str) : List (Str × List IndexEntry) :=
  topics.foldl (fun idx topic => alistSet idx topic (setAdd (lookupD idx topic []) e)) idx

/-- Embeds `addSubscriber` (src/ctpDataPublisher.py lines 140-171).  With a
non-`None` subscriber: allocates `nextId`, stores the subscriber in the
`subscribers` dict, and adds the *subscriber object* to the reverse-index set
of each of its subscribed topics (creating the set when absent).  With `None`:
does nothing and returns `None`.  No path raises. -/
def addSubscriber (st : PublisherState) (subscriber : Option Subscriber) :
    Except Str (PublisherState × Option Nat) :=
  match subscriber with
  | some sub =>
    let subId := st.nextId
    let st1 : PublisherState :=
      { st with nextId := st.nextId + 1,
                subscribers := alistSet st.subscribers subId sub }
    let st2 : PublisherState :=
      { st1 with topicsToSubscribers :=
          addTopics st1.topicsToSubscribers (IndexEntry.sub sub) sub.subscribedTopics }
    Except.ok (st2, some subId)
  | none => Except.ok (st, none)

/-- One iteration of the field-set aggregation loop of `connect`
(src/ctpDataPublisher.py lines 113-116): if neither the subscriber's field set
nor the accumulator is `None` the fields are unioned in; otherwise the
accumulator becomes `None`, which stands for "all fields". -/
def fieldsStep (fields : Option (List Str)) (s : Subscriber) : Option (List Str) :=
  match fields, s.subscribedDataFields with
  | some fs, some f => some (fs ∪ f)
  | _, _ => none

/-- Embeds the whole field-set aggregation loop of `connect`
(src/ctpDataPublisher.py lines 106-116), folding `fieldsStep` over the
registered subscribers starting from the empty set. -/
def connectFields (subscribers : List Subscriber) : Option (List Str) :=
  subscribers.foldl fieldsStep (some [])

/-- A decoded tick batch (the `pandas.DataFrame` built in `receiveDatafeed`
and dispatched by `notifyAll`): its index of external security identifiers,
and the remaining columns (trade datetime and price, kept as the decoded
text). -/
structure DataFrame where
  dfIndex : List Str
  rows : List (Str × Str)
deriving DecidableEq

/-- Embeds `notifyAll` (src/ctpDataPublisher.py lines 232-252), returning the
sequence of `onData` invocations it performs: the distinct index keys are
collected, the reverse-index sets of those keys are unioned, and every entry
of the union is invoked once with the whole batch. -/
def notifyAll (st : PublisherState) (data : DataFrame) : List (IndexEntry × DataFrame) :=
  let subscribers :=
    data.dfIndex.dedup.foldl
      (fun subs secId => subs ∪ lookupD st.topicsToSubscribers secId []) []
  if 0 < subscribers.length then subscribers.map (fun s => (s, data)) else []

/- ### `ctpDataPublisher.py`: the receive loop -/

/-- ASCII digit test. -/
def isDigitChar (c : Char) : Bool := '0' ≤ c && c ≤ '9'

/-- Numeric value of a two-digit group. -/
def digit2 (a b : Char) : Nat := (a.toNat - 48) * 10 + (b.toNat - 48)

/-- Model of the external `datetime.strptime(s, '%Y%m%d %H:%M:%S')` call in
`receiveDatafeed`: accepts exactly the zero-padded `YYYYMMDD HH:MM:SS` form
with in-range month, day, hour, minute and second fields. -/
def parseDatetimeOk (s : Str) : Bool :=
  match s with
  | [y1, y2, y3, y4, mo1, mo2, d1, d2, sp, h1, h2, c1, mi1, mi2, c2, se1, se2] =>
    [y1, y2, y3, y4, mo1, mo2, d1, d2, h1, h2, mi1, mi2, se1, se2].all isDigitChar
      && sp = ' ' && c1 = ':' && c2 = ':'
      && 1 ≤ digit2 mo1 mo2 && digit2 mo1 mo2 ≤ 12
      && 1 ≤ digit2 d1 d2 && digit2 d1 d2 ≤ 31
      && digit2 h1 h2 ≤ 23 && digit2 mi1 mi2 ≤ 59 && digit2 se1 se2 ≤ 61
  | _ => false

/-- Model of the external `float(s)` call in `receiveDatafeed`, restricted to
plain decimal literals: an optional sign, then digits with at most one decimal
point and at least one digit. -/
def parseFloatOk (s : Str) : Bool :=
  let body := match s with
    | '+' :: r => r
    | '-' :: r => r
    | r => r
  body.any isDigitChar
    && body.all (fun c => isDigitChar c || c = '.')
    && body.count '.' ≤ 1

/-- The exceptions the body of the `receiveDatafeed` loop can raise. -/
inductive RecvError where
  | valueUnpack
  | badDatetime
  | badFloat
deriving DecidableEq

/-- Embeds one iteration of the `receiveDatafeed` loop body
(src/ctpDataPublisher.py lines 272-288) on a raw message: the message is
split on commas and unpacked into exactly three fields (`ValueError`
otherwise), the instrument id is mapped through `secIds`, the datetime and
price are parsed (each raising when malformed), and the resulting one-row
frame is dispatched through `notifyAll` — unless the guard
`len(data) == len(cols)` fails, in which case the message is only warned
about.  `data` is always a three-element list, so that guard cannot fail.
The result is the list of `onData` invocations, or `none` when the message
was dropped with a warning. -/
def receiveStep (st : PublisherState) (raw : Str) :
    Except RecvError (Option (List (IndexEntry × DataFrame))) :=
  match splitOnChar ',' raw with
  | [instId, tradeDatetime, price] =>
    if parseDatetimeOk tradeDatetime then
      if parseFloatOk price then
        let data : List Str := [lookupD st.secIds instId instId, tradeDatetime, price]
        let cols : List Str := ["secId".toList, "tradeDate".toList, "price".toList]
        if data.length = cols.length then
          let df : DataFrame :=
            { dfIndex := [lookupD st.secIds instId instId],
              rows := [(tradeDatetime, price)] }
          Except.ok (some (notifyAll st df))
        else
          Except.ok none
      else Except.error RecvError.badFloat
    else Except.error RecvError.badDatetime
  | _ => Except.error RecvError.valueUnpack

/-- The `receiveDatafeed` loop over a finite inbound message sequence: each
message is processed in turn; an uncaught exception terminates the loop
(there is no handler around the body), otherwise the per-message outcomes are
collected in order. -/
def receiveLoop (st : PublisherState) :
    List Str → Except RecvError (List (Option (List (IndexEntry × DataFrame))))
  | [] => Except.ok []
  | raw :: rest => do
    let outcome ← receiveStep st raw
    let more ← receiveLoop st rest
    return outcome :: more

/- ### `ctpExecutionEngine.py` -/

/-- A `ctpOrder.CTPOrderStatus` record (src/ctpOrder.py lines 89-106). -/
structure CTPOrderStatus where
  sessionId : Nat
  status : Nat
deriving DecidableEq

/-- A `ctpOrder.CTPOrderId` (src/ctpOrder.py lines 109-119). -/
structure CTPOrderId where
  instId : Str
  exchange : Str
  orderId : Nat
deriving DecidableEq

/-- The mutable state of `CTPExecutionEngine`
(src/ctpExecutionEngine.py lines 86-96): the `executedOrders` dict and the
`nextId` counter.  The five callback slots are modelled by whether a user
`onOrderReturn` callback has been registered, which is all the claims need. -/
structure EngineState where
  executedOrders : List (Nat × CTPOrderStatus)
  nextId : Nat
  hasOnOrderReturn : Bool
deriving DecidableEq

/-- Embeds `placeOrder` (src/ctpExecutionEngine.py lines 129-152): allocates
the next correlation id, converts the order (propagating any conversion
exception), hands the native order and id to the transport, and returns the
`CTPOrderId`.  The returned list records the `ctptrader.placeOrder`
submissions.  Note that `executedOrders` is not written. -/
def placeOrder (st : EngineState) (order : Order) :
    Except Str (EngineState × List (CTPOrder × Nat) × CTPOrderId) :=
  let orderId := st.nextId
  let st1 : EngineState := { st with nextId := st.nextId + 1 }
  match convertToCtpOrder order with
  | Except.error e => Except.error e
  | Except.ok ctpOrderObj =>
    Except.ok (st1, [(ctpOrderObj, orderId)],
      { instId := order.secId, exchange := ctpOrderObj.exch, orderId := orderId })

/-- Embeds `queryStatus` (src/ctpExecutionEngine.py lines 171-184).  The
method body is only its docstring: it reads no state, raises nothing, and
returns Python `None` for every order identifier. -/
def queryStatus (st : EngineState) (orderId : CTPOrderId) : Option CTPOrderStatus :=
  none

/-- Embeds `_onOrderReturn` (src/ctpExecutionEngine.py lines 233-251).  The
method body is only its docstring: it updates no state and, unlike
`_onTradeReturn`, never forwards to the user-registered `onOrderReturn`
callback.  The returned list records the user-callback invocations the call
performs (always empty). -/
def onOrderReturn (st : EngineState) (orderRefId : Str) (notifySeq : Nat)
    (orderStatus : Nat) (volumeTraded : Nat) (volumeTotal : Nat) (seqNo : Nat) :
    EngineState × List (Str × Nat × Nat × Nat × Nat × Nat) :=
  (st, [])

/- ### Lemmas about the dict, set and string models -/

theorem lookupD_alistSet {κ α : Type} [DecidableEq κ] (m : List (κ × α)) (k k' : κ)
    (v d : α) : lookupD (alistSet m k v) k' d = if k' = k then v else lookupD m k' d := by
  induction m with
  | nil => simp [alistSet, lookupD]
  | cons p rest ih =>
    obtain ⟨k₁, v₁⟩ := p
    simp only [alistSet]
    by_cases h1 : k = k₁
    · subst h1
      simp only [if_pos rfl]
      by_cases h2 : k' = k <;> simp [lookupD, h2]
    · simp only [if_neg h1]
      by_cases h2 : k' = k₁
      · subst h2
        have h3 : ¬k' = k := fun he => h1 he.symm
        simp [lookupD, h3]
      · simp [lookupD, h2, ih]

theorem mem_setAdd {α : Type} [DecidableEq α] (s : List α) (a x : α) :
    x ∈ setAdd s a ↔ x = a ∨ x ∈ s := by
  simp only [setAdd]
  split
  · rename_i h
    exact ⟨fun hx => Or.inr hx, fun hx => hx.elim (fun he => he ▸ h) id⟩
  · simp [or_comm]

theorem mem_lookupD_addTopics (idx : List (Str × List IndexEntry)) (e x : IndexEntry)
    (topics : List Str) (t : Str) :
    x ∈ lookupD (addTopics idx e topics) t [] ↔
      (x = e ∧ t ∈ topics) ∨ x ∈ lookupD idx t [] := by
  induction topics generalizing idx with
  | nil => simp [addTopics]
  | cons topic rest ih =>
    simp only [addTopics, List.foldl_cons] at *
    rw [ih, lookupD_alistSet]
    by_cases ht : t = topic
    · subst ht
      simp [mem_setAdd]
      tauto
    · simp [ht]

theorem nodup_lookupD (m : List (Str × List IndexEntry)) (t : Str)
    (h : ∀ p ∈ m, p.2.Nodup) : (lookupD m t []).Nodup := by
  induction m with
  | nil => simp [lookupD]
  | cons p rest ih =>
    obtain ⟨k, v⟩ := p
    simp only [lookupD]
    split
    · exact h (k, v) (List.mem_cons_self _ _)
    · exact ih (fun q hq => h q (List.mem_cons_of_mem _ hq))

theorem mem_foldl_union {α κ : Type} [DecidableEq α] (f : κ → List α)
    (keys : List κ) (acc : List α) (x : α) :
    x ∈ keys.foldl (fun subs k => subs ∪ f k) acc ↔
      x ∈ acc ∨ ∃ k ∈ keys, x ∈ f k := by
  induction keys generalizing acc with
  | nil => simp
  | cons k rest ih =>
    simp only [List.foldl_cons, ih, List.mem_union_iff, List.mem_cons]
    constructor
    · rintro ((hx | hx) | ⟨k', hk', hx⟩)
      · exact Or.inl hx
      · exact Or.inr ⟨k, Or.inl rfl, hx⟩
      · exact Or.inr ⟨k', Or.inr hk', hx⟩
    · rintro (hx | ⟨k', (rfl | hk'), hx⟩)
      · exact Or.inl (Or.inl hx)
      · exact Or.inl (Or.inr hx)
      · exact Or.inr ⟨k', hk', hx⟩

theorem nodup_foldl_union {α κ : Type} [DecidableEq α] (f : κ → List α) (keys : List κ)
    (acc : List α) (hacc : acc.Nodup) (hf : ∀ k, (f k).Nodup) :
    (keys.foldl (fun subs k => subs ∪ f k) acc).Nodup := by
  induction keys generalizing acc with
  | nil => exact hacc
  | cons k rest ih => exact ih _ (List.Nodup.union _ (hf k))

theorem fieldsStep_none (s : Subscriber) : fieldsStep none s = none := by
  cases s.subscribedDataFields <;> rfl

theorem foldl_fieldsStep_none (subs : List Subscriber) :
    subs.foldl fieldsStep none = none := by
  induction subs with
  | nil => rfl
  | cons s rest ih => rw [List.foldl_cons, fieldsStep_none]; exact ih

theorem foldl_fieldsStep_none_iff (subs : List Subscriber) (a : List Str) :
    subs.foldl fieldsStep (some a) = none ↔
      ∃ s ∈ subs, s.subscribedDataFields = none := by
  induction subs generalizing a with
  | nil => simp
  | cons s rest ih =>
    rw [List.foldl_cons]
    cases hf : s.subscribedDataFields with
    | none =>
      have hstep : fieldsStep (some a) s = none := by simp [fieldsStep, hf]
      rw [hstep, foldl_fieldsStep_none]
      simp
      exact Or.inl hf
    | some f =>
      have hstep : fieldsStep (some a) s = some (a ∪ f) := by simp [fieldsStep, hf]
      rw [hstep, ih]
      simp [hf]

theorem foldl_fieldsStep_some_mem (subs : List Subscriber) (a fs : List Str) (x : Str)
    (h : subs.foldl fieldsStep (some a) = some fs) :
    x ∈ fs ↔ x ∈ a ∨ ∃ s ∈ subs, ∃ f, s.subscribedDataFields = some f ∧ x ∈ f := by
  induction subs generalizing a with
  | nil =>
    simp only [List.foldl_nil, Option.some.injEq] at h
    subst h
    simp
  | cons s rest ih =>
    rw [List.foldl_cons] at h
    cases hf : s.subscribedDataFields with
    | none =>
      rw [show fieldsStep (some a) s = none by simp [fieldsStep, hf],
        foldl_fieldsStep_none] at h
      exact absurd h (by simp)
    | some f =>
      rw [show fieldsStep (some a) s = some (a ∪ f) by simp [fieldsStep, hf]] at h
      rw [ih _ h]
      simp only [List.mem_union_iff, List.mem_cons]
      constructor
      · rintro ((hx | hx) | ⟨s', hs', g, hg, hx⟩)
        · exact Or.inl hx
        · exact Or.inr ⟨s, Or.inl rfl, f, hf, hx⟩
        · exact Or.inr ⟨s', Or.inr hs', g, hg, hx⟩
      · rintro (hx | ⟨s', (rfl | hs'), g, hg, hx⟩)
        · exact Or.inl (Or.inl hx)
        · rw [hf] at hg
          cases hg
          exact Or.inl (Or.inr hx)
        · exact Or.inr ⟨s', hs', g, hg, hx⟩

theorem splitOnChar_ne_nil (c : Char) (s : Str) : splitOnChar c s ≠ [] := by
  cases s with
  | nil => simp [splitOnChar]
  | cons x xs =>
    simp only [splitOnChar]
    split
    · simp
    · split <;> simp

theorem splitOnChar_not_mem (c : Char) (t : Str) (h : c ∉ t) : splitOnChar c t = [t] := by
  induction t with
  | nil => rfl
  | cons x xs ih =>
    have hx : ¬x = c := fun he => h (he ▸ List.mem_cons_self x xs)
    have hxs : c ∉ xs := fun hm => h (List.mem_cons_of_mem _ hm)
    simp only [splitOnChar, ih hxs, hx, if_false]

theorem splitOnChar_append (c : Char) (s t : Str) (hs : c ∉ s) :
    splitOnChar c (s ++ c :: t) = s :: splitOnChar c t := by
  induction s with
  | nil =>
    simp only [List.nil_append, splitOnChar]
    cases h : splitOnChar c t with
    | nil => exact absurd h (splitOnChar_ne_nil c t)
    | cons r rs => simp
  | cons x s' ih =>
    have hx : ¬x = c := fun he => hs (he ▸ List.mem_cons_self x s')
    have hs' : c ∉ s' := fun hm => hs (List.mem_cons_of_mem _ hm)
    simp only [List.cons_append, splitOnChar, List.append_eq, ih hs', hx, if_false]

theorem splitOnChar_pair (c : Char) (s t : Str) (hs : c ∉ s) (ht : c ∉ t) :
    splitOnChar c (s ++ c :: t) = [s, t] := by
  rw [splitOnChar_append c s t hs, splitOnChar_not_mem c t ht]

/- ### Concrete runs used by the claim theorems -/

/-- `true` exactly when an `Except` value is a normal (non-raising) result. -/
def isOkE {ε α : Type} : Except ε α → Bool
  | Except.ok _ => true
  | Except.error _ => false

/-- A subscriber interested in the topic `rb1910.XSHG` and in all data
fields. -/
def demoSubA : Subscriber where
  tag := 0
  subscribedTopics := ["rb1910.XSHG".toList]
  subscribedDataFields := none

/-- The publisher state after adding `demoSubA` to the fresh publisher. -/
def demoAddState : PublisherState where
  subscribers := [(1, demoSubA)]
  secIds := []
  topicsToSubscribers := [("rb1910.XSHG".toList, [IndexEntry.sub demoSubA])]
  nextId := 2

/-- A second subscriber, interested in the disjoint topic `ag1912.XSHF`. -/
def demoSubB : Subscriber where
  tag := 1
  subscribedTopics := ["ag1912.XSHF".toList]
  subscribedDataFields := none

/-- A publisher state with `demoSubA` and `demoSubB` registered. -/
def demoNotifyState : PublisherState where
  subscribers := [(1, demoSubA), (2, demoSubB)]
  secIds := []
  topicsToSubscribers :=
    [("rb1910.XSHG".toList, [IndexEntry.sub demoSubA]),
     ("ag1912.XSHF".toList, [IndexEntry.sub demoSubB])]
  nextId := 3

/-- A tick batch keyed by the external id of `demoSubA`'s topic. -/
def demoBatch : DataFrame where
  dfIndex := ["rb1910.XSHG".toList]
  rows := [("20190901 10:30:00".toList, "3850.0".toList)]

/-- A subscriber requesting an empty field set (an empty, but present,
filter). -/
def demoSubEmptyFields : Subscriber where
  tag := 3
  subscribedTopics := []
  subscribedDataFields := some []

/-- A subscriber requesting only the `price` field. -/
def demoSubPrice : Subscriber where
  tag := 4
  subscribedTopics := []
  subscribedDataFields := some ["price".toList]

/-- A subscriber interested in `cu1909.XSHG`, used by the receive-loop run. -/
def demoSubC2 : Subscriber where
  tag := 5
  subscribedTopics := ["cu1909.XSHG".toList]
  subscribedDataFields := none

/-- A connected publisher state: `secIds` maps the CTP instrument id back to
the external name, and `demoSubC2` is registered for the topic. -/
def demoFeedState : PublisherState where
  subscribers := [(1, demoSubC2)]
  secIds := [("cu1909".toList, "cu1909.XSHG".toList)]
  topicsToSubscribers := [("cu1909.XSHG".toList, [IndexEntry.sub demoSubC2])]
  nextId := 2

/-- A well-formed raw tick message for `cu1909`. -/
def demoGoodMsg : Str := "cu1909,20190901 10:30:00,3850.0".toList

/-- The one-row frame decoded from `demoGoodMsg`. -/
def demoGoodDf : DataFrame where
  dfIndex := ["cu1909.XSHG".toList]
  rows := [("20190901 10:30:00".toList, "3850.0".toList)]

/-- A MARKET BUY order at price 100. -/
def demoMktBuy : Order where
  secId := "cu1909.XSHG".toList
  side := Side.buy
  volume := 2
  price := 100
  priceType := PriceType.market
  offset := Offset.openC

/-- A MARKET SELL order at price 100. -/
def demoMktSell : Order where
  secId := "cu1909.XSHG".toList
  side := Side.sell
  volume := 2
  price := 100
  priceType := PriceType.market
  offset := Offset.openC

/-- The native order submitted for `demoMktBuy`. -/
def demoCtpBuy : CTPOrder where
  instId := "cu1909".toList
  exch := "S".toList
  side := 48
  volume := 2
  priceType := 50
  price := 200
  offsetFlag := 48

/-- A fresh execution-engine state with a user `onOrderReturn` callback
registered through `setCallbacks`. -/
def demoEngine0 : EngineState where
  executedOrders := []
  nextId := 1
  hasOnOrderReturn := true

/-- The engine state after placing one order. -/
def demoEngine1 : EngineState where
  executedOrders := []
  nextId := 2
  hasOnOrderReturn := true

/-- The order identifier returned for the first placed order. -/
def demoOrderId : CTPOrderId where
  instId := "cu1909.XSHG".toList
  exchange := "S".toList
  orderId := 1

/- ### The claims -/

/-- Claim C9 (confirmed): for every well-formed external security identifier
`SYMBOL.SUFFIX`, the external-to-native mapping `getCtpInstId` returns the
uppercased instrument code when the exchange suffix starts with `XZCE` or
`CCFX`, and the lowercased instrument code for every other suffix. -/
theorem getCtpInstId_case_rule (sym suffix : Str)
    (h1 : '.' ∉ sym) (h2 : '.' ∉ suffix) :
    getCtpInstId (sym ++ '.' :: suffix) =
      Except.ok
        (if strStartsWith suffix ("XZCE".toList) || strStartsWith suffix ("CCFX".toList)
         then strUpper sym else strLower sym) := by
  unfold getCtpInstId
  rw [splitOnChar_pair '.' sym suffix h1 h2]
  exact (apply_ite Except.ok _ _ _).symm

/-- Witness for claim C9, at the two scenario inputs `IF1909.CCFX`
(uppercased) and `cu1909.XSHG` (lowercased). -/
theorem getCtpInstId_case_rule_witness :
    ('.' ∉ ("IF1909".toList : Str)) ∧
    getCtpInstId (("IF1909".toList : Str) ++ '.' :: ("CCFX".toList)) =
      Except.ok
        (if strStartsWith ("CCFX".toList) ("XZCE".toList)
            || strStartsWith ("CCFX".toList) ("CCFX".toList)
         then strUpper ("IF1909".toList) else strLower ("IF1909".toList)) ∧
    getCtpInstId (("cu1909".toList : Str) ++ '.' :: ("XSHG".toList)) =
      Except.ok
        (if strStartsWith ("XSHG".toList) ("XZCE".toList)
            || strStartsWith ("XSHG".toList) ("CCFX".toList)
         then strUpper ("cu1909".toList) else strLower ("cu1909".toList)) :=
  ⟨by decide,
   getCtpInstId_case_rule ("IF1909".toList) ("CCFX".toList) (by decide) (by decide),
   getCtpInstId_case_rule ("cu1909".toList) ("XSHG".toList) (by decide) (by decide)⟩

/-- Claim C4 (confirmed): for every order with MARKET price type whose
conversion succeeds, the emitted native order carries the limit price
`price + 100` on the buy side and `max(1, price - 100)` on the sell side
(the source hard-codes the tick amount `K = 100` and the minimum price 1). -/
theorem convertToCtpOrder_market_price (o : Order) (co : CTPOrder)
    (hm : o.priceType = PriceType.market)
    (hc : convertToCtpOrder o = Except.ok co) :
    co.price = if o.side = Side.buy then o.price + 100 else max 1 (o.price - 100) := by
  unfold convertToCtpOrder at hc
  cases hinst : getCtpInstId o.secId with
  | error e => rw [hinst] at hc; exact absurd hc (by simp)
  | ok instId =>
    cases hexch : getCtpExch o.secId with
    | error e => rw [hinst, hexch] at hc; exact absurd hc (by simp)
    | ok exch =>
      rw [hinst, hexch] at hc
      simp only [Except.ok.injEq] at hc
      subst hc
      cases ho : o.side <;> simp [hm, ho, CTPOrder.DIRECTION_BUY, CTPOrder.DIRECTION_SELL]

/-- Witness for claim C4: the MARKET BUY at 100 converts with limit price
`100 + 100 = 200`, and the MARKET SELL at 100 with limit price
`max(1, 100 - 100) = 1`. -/
theorem convertToCtpOrder_market_price_witness :
    (demoMktBuy.priceType = PriceType.market ∧
      convertToCtpOrder demoMktBuy = Except.ok demoCtpBuy) ∧
    (demoCtpBuy.price =
      if demoMktBuy.side = Side.buy then demoMktBuy.price + 100
      else max 1 (demoMktBuy.price - 100)) ∧
    demoCtpBuy.price = 200 :=
  ⟨⟨by decide, by decide⟩,
   convertToCtpOrder_market_price demoMktBuy demoCtpBuy (by decide) (by decide),
   by decide⟩

/-- Claim C10 (confirmed): whatever the requested price type, every native
order produced by the conversion carries the native price type
`PRICE_LIMIT_PRICE`. -/
theorem convertToCtpOrder_priceType (o : Order) (co : CTPOrder)
    (hc : convertToCtpOrder o = Except.ok co) :
    co.priceType = CTPOrder.PRICE_LIMIT_PRICE := by
  unfold convertToCtpOrder at hc
  cases hinst : getCtpInstId o.secId with
  | error e => rw [hinst] at hc; exact absurd hc (by simp)
  | ok instId =>
    cases hexch : getCtpExch o.secId with
    | error e => rw [hinst, hexch] at hc; exact absurd hc (by simp)
    | ok exch =>
      rw [hinst, hexch] at hc
      simp only [Except.ok.injEq] at hc
      subst hc
      rfl

/-- Witness for claim C10, at the MARKET SELL scenario order. -/
theorem convertToCtpOrder_priceType_witness :
    convertToCtpOrder demoMktSell =
      Except.ok { demoCtpBuy with side := 49, price := 1 } ∧
    ({ demoCtpBuy with side := 49, price := 1 } : CTPOrder).priceType =
      CTPOrder.PRICE_LIMIT_PRICE :=
  ⟨by decide,
   convertToCtpOrder_priceType demoMktSell { demoCtpBuy with side := 49, price := 1 }
     (by decide)⟩

/-- Claim C1 counterexample: adding `demoSubA` to the fresh publisher returns
identifier 1, yet the reverse-index set for its (only) topic does not contain
the integer identifier 1 — the source stores the subscriber object, not the
identifier. -/
theorem addSubscriber_id_not_in_index :
    addSubscriber initPub (some demoSubA) = Except.ok (demoAddState, some 1) ∧
    IndexEntry.int 1 ∉ lookupD demoAddState.topicsToSubscribers ("rb1910.XSHG".toList) [] := by
  constructor <;> decide

/-- Claim C1 as amended: after `add(s)` returns identifier `i`, the
reverse-index set of a topic `t` contains the *subscriber object* `s` exactly
when `t` is one of `s`'s topics or the set contained `s` already; the integer
identifier `i` is never inserted into any topic's set. -/
theorem addSubscriber_reverse_index (st st' : PublisherState) (s : Subscriber)
    (i : Nat) (t : Str)
    (h : addSubscriber st (some s) = Except.ok (st', some i)) :
    (IndexEntry.sub s ∈ lookupD st'.topicsToSubscribers t [] ↔
      t ∈ s.subscribedTopics ∨ IndexEntry.sub s ∈ lookupD st.topicsToSubscribers t []) ∧
    (IndexEntry.int i ∈ lookupD st'.topicsToSubscribers t [] ↔
      IndexEntry.int i ∈ lookupD st.topicsToSubscribers t []) := by
  simp only [addSubscriber, Except.ok.injEq, Prod.mk.injEq, Option.some.injEq] at h
  obtain ⟨hst, _⟩ := h
  subst hst
  constructor
  · rw [mem_lookupD_addTopics]
    simp
  · rw [mem_lookupD_addTopics]
    simp

/-- Witness for claim C1's amended theorem, at the concrete registration of
`demoSubA`. -/
theorem addSubscriber_reverse_index_witness :
    addSubscriber initPub (some demoSubA) = Except.ok (demoAddState, some 1) ∧
    ((IndexEntry.sub demoSubA ∈
        lookupD demoAddState.topicsToSubscribers ("rb1910.XSHG".toList) [] ↔
      "rb1910.XSHG".toList ∈ demoSubA.subscribedTopics ∨
        IndexEntry.sub demoSubA ∈
          lookupD initPub.topicsToSubscribers ("rb1910.XSHG".toList) []) ∧
     (IndexEntry.int 1 ∈
        lookupD demoAddState.topicsToSubscribers ("rb1910.XSHG".toList) [] ↔
      IndexEntry.int 1 ∈
        lookupD initPub.topicsToSubscribers ("rb1910.XSHG".toList) [])) :=
  ⟨by decide,
   addSubscriber_reverse_index initPub demoAddState demoSubA 1 ("rb1910.XSHG".toList)
     (by decide)⟩

/-- Claim C5 counterexample: adding a `None` subscriber does not raise — it
returns normally (with a `None` identifier), so no `InvalidSubscriber` failure
is surfaced to the caller. -/
theorem addSubscriber_none_no_raise :
    addSubscriber initPub none = Except.ok (initPub, none) ∧
    isOkE (addSubscriber initPub none) = true := by
  constructor <;> decide

/-- Claim C5 as amended: calling `add` with a null/unset subscriber raises
nothing and returns a null (`None`) identifier, and the operation has no
effect: the subscriber map, the reverse index and the next-identifier counter
are all unchanged. -/
theorem addSubscriber_none_noop (st : PublisherState) :
    addSubscriber st none = Except.ok (st, none) :=
  rfl

/-- Claim C7 (confirmed): `notifyAll` invokes the delivery entry point of
every reverse-index entry interested in at least one key of the batch exactly
once, always with the full batch, and invokes nobody else.  The hypothesis —
every reverse-index set is duplicate-free — is maintained by the source,
whose reverse index holds Python sets. -/
theorem notifyAll_exactly_once (st : PublisherState) (data : DataFrame)
    (e : IndexEntry) (p : IndexEntry × DataFrame)
    (hwf : ∀ q ∈ st.topicsToSubscribers, q.2.Nodup) :
    (((notifyAll st data).map Prod.fst).count e =
      if ∃ t ∈ data.dfIndex, e ∈ lookupD st.topicsToSubscribers t [] then 1 else 0) ∧
    (p ∈ notifyAll st data → p.2 = data) := by
  have hU_mem : ∀ x : IndexEntry,
      x ∈ data.dfIndex.dedup.foldl
            (fun subs secId => subs ∪ lookupD st.topicsToSubscribers secId []) [] ↔
        ∃ t ∈ data.dfIndex, x ∈ lookupD st.topicsToSubscribers t [] := by
    intro x
    rw [mem_foldl_union]
    simp [List.mem_dedup]
  have hU_nodup :
      (data.dfIndex.dedup.foldl
        (fun subs secId => subs ∪ lookupD st.topicsToSubscribers secId []) []).Nodup :=
    nodup_foldl_union _ _ _ List.nodup_nil (fun k => nodup_lookupD _ _ hwf)
  have hcalls : notifyAll st data =
      (data.dfIndex.dedup.foldl
        (fun subs secId => subs ∪ lookupD st.topicsToSubscribers secId []) []).map
        (fun s => (s, data)) := by
    simp only [notifyAll]
    split
    · rfl
    · rename_i hlen
      have hnil : data.dfIndex.dedup.foldl
          (fun subs secId => subs ∪ lookupD st.topicsToSubscribers secId []) [] = [] := by
        cases hU : data.dfIndex.dedup.foldl
            (fun subs secId => subs ∪ lookupD st.topicsToSubscribers secId []) [] with
        | nil => rfl
        | cons a l => rw [hU] at hlen; simp at hlen
      rw [hnil]
      rfl
  constructor
  · rw [hcalls, List.map_map,
      show Prod.fst ∘ (fun s : IndexEntry => (s, data)) = id from rfl, List.map_id]
    by_cases hx : e ∈ data.dfIndex.dedup.foldl
        (fun subs secId => subs ∪ lookupD st.topicsToSubscribers secId []) []
    · rw [List.count_eq_one_of_mem hU_nodup hx, if_pos ((hU_mem e).mp hx)]
    · rw [List.count_eq_zero_of_not_mem hx,
        if_neg (fun hex => hx ((hU_mem e).mpr hex))]
  · rw [hcalls]
    intro hp
    obtain ⟨a, _, ha⟩ := List.mem_map.mp hp
    rw [← ha]

/-- Witness for claim C7: with `demoSubA` registered for `rb1910.XSHG` and
`demoSubB` for a disjoint topic, a batch keyed by `rb1910.XSHG` reaches
`demoSubA` exactly once and carries the full batch wherever it is
delivered. -/
theorem notifyAll_exactly_once_witness :
    (∀ q ∈ demoNotifyState.topicsToSubscribers, q.2.Nodup) ∧
    ((((notifyAll demoNotifyState demoBatch).map Prod.fst).count (IndexEntry.sub demoSubA) =
      if ∃ t ∈ demoBatch.dfIndex,
          IndexEntry.sub demoSubA ∈ lookupD demoNotifyState.topicsToSubscribers t []
      then 1 else 0) ∧
     ((IndexEntry.sub demoSubB, demoBatch) ∈ notifyAll demoNotifyState demoBatch →
       (IndexEntry.sub demoSubB, demoBatch).2 = demoBatch)) :=
  ⟨by decide,
   notifyAll_exactly_once demoNotifyState demoBatch (IndexEntry.sub demoSubA)
     (IndexEntry.sub demoSubB, demoBatch) (by decide)⟩

/-- The scenario's negative half on the concrete run: the subscriber
registered for the disjoint topic receives nothing. -/
theorem notifyAll_disjoint_not_invoked :
    ((notifyAll demoNotifyState demoBatch).map Prod.fst).count (IndexEntry.sub demoSubB)
      = 0 := by
  decide

/-- Claim C8 counterexample: a subscriber with an *empty* (but present) field
filter does not degrade the aggregate to "all fields": aggregating it with a
`price`-only subscriber yields just `price`.  Only an absent (`None`) filter
degrades the aggregate. -/
theorem connectFields_empty_filter_not_all :
    demoSubEmptyFields.subscribedDataFields = some [] ∧
    connectFields [demoSubEmptyFields, demoSubPrice] = some ["price".toList] ∧
    connectFields [demoSubEmptyFields, demoSubPrice] ≠ none := by
  refine ⟨by decide, by decide, by decide⟩

/-- Claim C8 as amended: the aggregate is "all fields" (Python `None`) exactly
when some subscriber's filter is absent (`None`) — regardless of visiting
order and of other subscribers' narrower filters — and otherwise it is the
union of the subscribers' field sets, to which an empty filter contributes
nothing. -/
theorem connectFields_aggregate (subs : List Subscriber) (fs : List Str) (x : Str) :
    (connectFields subs = none ↔ ∃ s ∈ subs, s.subscribedDataFields = none) ∧
    (connectFields subs = some fs →
      (x ∈ fs ↔ ∃ s ∈ subs, ∃ f, s.subscribedDataFields = some f ∧ x ∈ f)) := by
  constructor
  · exact foldl_fieldsStep_none_iff subs []
  · intro h
    have hm := foldl_fieldsStep_some_mem subs [] fs x h
    simpa using hm

/-- Witness for claim C8's amended theorem, at a concrete subscriber list. -/
theorem connectFields_aggregate_witness :
    (connectFields [demoSubEmptyFields, demoSubPrice] = none ↔
      ∃ s ∈ [demoSubEmptyFields, demoSubPrice], s.subscribedDataFields = none) ∧
    (connectFields [demoSubEmptyFields, demoSubPrice] = some ["price".toList] →
      ("price".toList ∈ (["price".toList] : List Str) ↔
        ∃ s ∈ [demoSubEmptyFields, demoSubPrice],
          ∃ f, s.subscribedDataFields = some f ∧ "price".toList ∈ f)) :=
  connectFields_aggregate [demoSubEmptyFields, demoSubPrice] ["price".toList]
    ("price".toList)

/-- Claim C2 (code bug): the two-field message `bad,data` does not split into
three fields, so the tuple unpack in the loop body raises `ValueError` before
the dead `len(data) == len(cols)` guard can drop it: the receive loop
terminates and the following well-formed message is never delivered, although
that same message alone would be decoded and delivered. -/
theorem receiveDatafeed_malformed_crash :
    receiveLoop demoFeedState [("bad,data".toList : Str), demoGoodMsg] =
      Except.error RecvError.valueUnpack ∧
    receiveLoop demoFeedState [demoGoodMsg] =
      Except.ok [some [(IndexEntry.sub demoSubC2, demoGoodDf)]] := by
  constructor <;> decide

/-- Claim C3 (code bug): `_onOrderReturn` has an empty (docstring-only) body.
Replaying the spec scenario — callbacks with `seqNo = 5` then `seqNo = 3` on
an engine with a registered user callback — changes no engine state and
invokes no user callback, so no sequence-number ordering rule is applied at
all. -/
theorem onOrderReturn_stub_ignores_everything :
    onOrderReturn demoEngine1 ("1".toList) 0 51 10 20 5 = (demoEngine1, []) ∧
    onOrderReturn demoEngine1 ("1".toList) 0 52 10 20 3 = (demoEngine1, []) :=
  ⟨rfl, rfl⟩

/-- Claim C6 (code bug): `queryStatus` has an empty (docstring-only) body.
Even after `placeOrder` submits an order, querying the returned identifier
yields Python `None` — not the latest status — and querying a never-submitted
identifier also yields `None` rather than failing with `UnknownOrder`. -/
theorem queryStatus_returns_none :
    placeOrder demoEngine0 demoMktBuy =
      Except.ok (demoEngine1, [(demoCtpBuy, 1)], demoOrderId) ∧
    queryStatus demoEngine1 demoOrderId = none ∧
    queryStatus demoEngine1 { instId := "zz".toList, exchange := [], orderId := 99 } =
      none := by
  refine ⟨by decide, rfl, rfl⟩
